import Mathlib

/-!
Shallow embedding of the object/property/signal runtime of the glib binding
(`src/object.rs`).  Pure Rust logic (`validate_property_type`,
`validate_signal_arguments`, `set_property`, `set_properties`, `emit`, the
`connect_unsafe` closure wrapper, `Object::new_internal`, `SendWeakRef`) is
translated function by function.  Native `gobject_sys` primitives that the
binding calls into (`g_type_check_value_holds`, `g_param_value_validate`,
`g_object_newv`, `g_object_ref_sink`, `g_object_set_property`,
`g_weak_ref_get`, destruction) are out of scope of the repository and are
modelled from the spec; each such definition carries a doc comment saying so.
-/

namespace Glib

/-- A registered dynamic type: its id, the ids of itself and of every
supertype (class chain and interfaces, the basis of `Type::is_a`), and the
type flags that `g_type_test_flags` reads. -/
structure GType where
  id : Nat
  ancestors : List Nat
  instantiatable : Bool
  abstract : Bool
deriving DecidableEq

/-- Translation of `Type::is_a(target)`: walks the class chain and interface
set of `t` looking for `target`. -/
def is_a (t target : GType) : Bool := target.id ∈ t.ancestors

/-- The invalid/uninitialized type tag (`Type::Invalid`, the type of
`Value::uninitialized()`). -/
def gInvalidType : GType := ⟨0, [0], false, false⟩

/-- The root object type (`Object::static_type()`). -/
def gObjectType : GType := ⟨1, [1], true, false⟩

/-- The unit type (`Type::Unit`, i.e. no return value). -/
def gUnitType : GType := ⟨2, [2], false, false⟩

/-- The `InitiallyUnowned` base type: instances of its subtypes are created
with a floating reference. -/
def gInitiallyUnownedType : GType := ⟨3, [3, 1], true, false⟩

/-- The payload of a `Value` box.  `obj o` is an object-typed payload holding
either no object (`none`) or an object whose dynamic type is `d`
(`obj (some d)`); only the dynamic type of a contained object is observed by
the validation code, so it is all the model keeps.  `other n` is any
non-object payload. -/
inductive ValueContent where
  | obj : Option GType → ValueContent
  | other : Nat → ValueContent
deriving DecidableEq

/-- A `Value`: a tagged box with a static type tag `g_type` (the field the
Rust code retags by writing `value.0.g_type`) and a payload. -/
structure Value where
  g_type : GType
  content : ValueContent
deriving DecidableEq

/-- Modelled from the spec: `g_type_check_value_holds(value, t)` checks that
the value holds type `t`, i.e. that the value's static type tag is `t` or a
subtype of `t` (`G_VALUE_HOLDS` is `is_a`-based). -/
def g_type_check_value_holds (v : Value) (t : GType) : Bool := is_a v.g_type t

/-- Translation of `value.get::<Object>()` as used by the validation code:
succeeds iff the value's static tag is an object type and the payload is
object-shaped, returning the contained object (or `none`). -/
def value_get_object (v : Value) : Except Unit (Option GType) :=
  if is_a v.g_type gObjectType then
    match v.content with
    | ValueContent.obj o => Except.ok o
    | ValueContent.other _ => Except.error ()
  else Except.error ()

/-- The property flags read by `validate_property_type`
(`ParamFlags::WRITABLE`, `CONSTRUCT_ONLY`, `LAX_VALIDATION`). -/
structure ParamFlags where
  readable : Bool
  writable : Bool
  construct_only : Bool
  lax_validation : Bool
deriving DecidableEq

/-- A property descriptor (`ParamSpec`): name, flags, value type, and the
descriptor-specific validation/coercion that `g_param_value_validate`
applies (modelled from the spec as the function `validate`; the native call
reports `changed = true` exactly when it modified the value). -/
structure ParamSpec where
  name : String
  flags : ParamFlags
  value_type : GType
  validate : Value → Value

/-- The errors produced along the property/construction paths, classified
following the spec's taxonomy (the Rust code returns `BoolError` with a
message; the constructor used here matches the message produced for each
`return Err(...)` site). -/
inductive PropError where
  | notFound (property : String)
  | notWritable (property : String)
  | typeMismatch (property : String)
  | validationFailed (property : String)
  | constructError (msg : String)
  | internal
deriving DecidableEq

/-- Translation of `validate_property_type` (src/object.rs:2105-2183).
Returns the possibly retagged/coerced value (the Rust function mutates
`property_value` in place). -/
def validate_property_type (type_ : GType) (allow_construct_only : Bool)
    (pspec : ParamSpec) (property_value : Value) : Except PropError Value :=
  if pspec.flags.writable = false ∨
      (allow_construct_only = false ∧ pspec.flags.construct_only = true) then
    Except.error (PropError.notWritable pspec.name)
  else
    let valid_type : Bool := g_type_check_value_holds property_value pspec.value_type
    let retagged : Except PropError Value :=
      if valid_type = false ∧ is_a property_value.g_type gObjectType = true then
        match value_get_object property_value with
        | Except.ok (some objt) =>
          if is_a objt pspec.value_type then
            Except.ok { property_value with g_type := pspec.value_type }
          else
            Except.error (PropError.typeMismatch pspec.name)
        | Except.ok none =>
          -- If the value is None then the type is compatible too
          Except.ok { property_value with g_type := pspec.value_type }
        | Except.error _ => Except.error PropError.internal
      else if valid_type = false then
        Except.error (PropError.typeMismatch pspec.name)
      else
        Except.ok property_value
    match retagged with
    | Except.error e => Except.error e
    | Except.ok pv =>
      let validated := pspec.validate pv
      let change_allowed := pspec.flags.lax_validation
      if validated ≠ pv ∧ change_allowed = false then
        Except.error (PropError.validationFailed pspec.name)
      else
        Except.ok validated

/-- An object as seen by the property path: its dynamic type, its class's
property descriptor table (`list_properties` / `find_property`), and the
committed property values (the instance data block). -/
structure GObject where
  type_ : GType
  klass : List ParamSpec
  props : List (String × Value)

/-- Translation of `ObjectClass::find_property` over the descriptor table. -/
def find_property (obj : GObject) (property_name : String) : Option ParamSpec :=
  obj.klass.find? (fun p => p.name == property_name)

/-- Modelled from the spec: `g_object_set_property` commits the validated
value into the instance data block (and fires the notify signal, which this
model does not track). -/
def g_object_set_property (obj : GObject) (property_name : String) (v : Value) : GObject :=
  { obj with props := (property_name, v) :: obj.props.filter (fun p => !(p.1 == property_name)) }

/-- Translation of `ObjectExt::set_property` (src/object.rs:1542-1571):
descriptor lookup, validation with `allow_construct_only = false`, then
commit.  An error result means `g_object_set_property` was never called, so
the object is unchanged. -/
def set_property (obj : GObject) (property_name : String) (value : Value) :
    Except PropError GObject :=
  match find_property obj property_name with
  | none => Except.error (PropError.notFound property_name)
  | some pspec =>
    match validate_property_type obj.type_ false pspec value with
    | Except.error e => Except.error e
    | Except.ok property_value =>
      Except.ok (g_object_set_property obj property_name property_value)

/-- One step of the validation pass shared by `set_properties` and
`Object::new`: look the name up in the descriptor table and validate the
value against the descriptor. -/
def validate_pair (type_ : GType) (pspecs : List ParamSpec) (allow_construct_only : Bool)
    (nv : String × Value) : Except PropError (String × Value) :=
  match pspecs.find? (fun p => p.name == nv.1) with
  | none => Except.error (PropError.notFound nv.1)
  | some pspec =>
    match validate_property_type type_ allow_construct_only pspec nv.2 with
    | Except.error e => Except.error e
    | Except.ok v => Except.ok (nv.1, v)

/-- The `collect::<Result<_, _>>` pass over all supplied pairs: stops at the
first failing pair. -/
def validate_pairs (type_ : GType) (pspecs : List ParamSpec) (allow_construct_only : Bool) :
    List (String × Value) → Except PropError (List (String × Value))
  | [] => Except.ok []
  | nv :: rest =>
    match validate_pair type_ pspecs allow_construct_only nv with
    | Except.error e => Except.error e
    | Except.ok p =>
      match validate_pairs type_ pspecs allow_construct_only rest with
      | Except.error e => Except.error e
      | Except.ok ps => Except.ok (p :: ps)

/-- Translation of `ObjectExt::set_properties` (src/object.rs:1466-1502):
every pair is looked up and validated first; only when the whole collection
succeeds does the loop of `g_object_set_property` calls run. -/
def set_properties (obj : GObject) (property_values : List (String × Value)) :
    Except PropError GObject :=
  match validate_pairs obj.type_ obj.klass false property_values with
  | Except.error e => Except.error e
  | Except.ok params =>
    Except.ok (params.foldl (fun o nv => g_object_set_property o nv.1 nv.2) obj)

/-- A native object reference as the reference counter sees it: its count
and whether it is still floating. -/
structure NativeObj where
  refCount : Nat
  floating : Bool
deriving DecidableEq

/-- Modelled from the spec: `g_object_newv` allocates an instance with
reference count 1; the reference is floating exactly when the type is
initially-unowned (spec §3 FloatingReference: floating immediately after
creation, until sunk). -/
def g_object_newv (type_ : GType) (params : List (String × Value)) : Option NativeObj :=
  let _ := params
  some { refCount := 1, floating := is_a type_ gInitiallyUnownedType }

/-- Modelled from the spec: `g_object_ref_sink` converts a floating
reference into an owned one without incrementing the count; on an already
sunk reference it increments the count. -/
def g_object_ref_sink (o : NativeObj) : NativeObj :=
  if o.floating then { o with floating := false } else { o with refCount := o.refCount + 1 }

/-- Translation of `FromGlibPtrNone for ObjectRef` (src/object.rs:561-572):
"Attention: This takes ownership of floating references!" via
`g_object_ref_sink`. -/
def from_glib_none_obj (o : NativeObj) : NativeObj := g_object_ref_sink o

/-- Translation of `FromGlibPtrFull for ObjectRef`: takes over the reference
as is. -/
def from_glib_full_obj (o : NativeObj) : NativeObj := o

/-- Translation of `Object::new_internal` (src/object.rs:1271-1321). -/
def Object.new_internal (type_ : GType) (params : List (String × Value)) :
    Except PropError NativeObj :=
  if is_a type_ gObjectType = false then
    Except.error (PropError.constructError "non-GObject type")
  else if type_.instantiatable = false then
    Except.error (PropError.constructError "not instantiatable")
  else if type_.abstract = true then
    Except.error (PropError.constructError "abstract type")
  else
    match g_object_newv type_ params with
    | none => Except.error (PropError.constructError "allocation failed")
    | some ptr =>
      if is_a type_ gInitiallyUnownedType then
        -- Attention: This takes ownership of the floating reference
        Except.ok (from_glib_none_obj ptr)
      else
        Except.ok (from_glib_full_obj ptr)

/-- Translation of `Object::new_generic` (src/object.rs:1245-1269): validate
every supplied property against the class's descriptor table with
`allow_construct_only = true`, then construct.  `pspecs` stands for
`ObjectClass::from_type(type_).list_properties()`. -/
def Object.new_generic (type_ : GType) (pspecs : List ParamSpec)
    (properties : List (String × Value)) : Except PropError NativeObj :=
  match validate_pairs type_ pspecs true properties with
  | Except.error e => Except.error e
  | Except.ok params => Object.new_internal type_ params

/-- The errors produced along the signal path, classified following the
spec's taxonomy (again the Rust code returns `BoolError` messages; each
constructor corresponds to one `return Err(...)` site of
`validate_signal_arguments`). -/
inductive SignalError where
  | notFound (signal : String)
  | arityMismatch (signal : String) (expected got : Nat)
  | argTypeMismatch (signal : String) (index : Nat)
  | internal
deriving DecidableEq

/-- The result of `g_signal_query`: the resolved signal's id, arity,
parameter types and return type (`GSignalQuery`). -/
structure SignalQuery where
  signal_id : Nat
  n_params : Nat
  param_types : List GType
  return_type : GType

/-- Modelled from the spec: the native signal machinery the binding calls
into.  `parse_name` is `g_signal_parse_name` (resolves a `name::detail`
string against a type to a signal id and detail quark), `query` is
`g_signal_query`, and `emitv` is `g_signal_emitv`: given the instance-and-
arguments array, the signal id and detail, and the initialized return-value
box, it dispatches the connected handlers and returns the final return-value
box together with the ids of the handlers it invoked (the observable
dispatch). -/
structure SignalRegistry where
  parse_name : GType → String → Option (Nat × Nat)
  query : Nat → SignalQuery
  emitv : Nat → Nat → List Value → Value → Value × List Nat

/-- The per-argument loop of `validate_signal_arguments`
(src/object.rs:2238-2277): object-typed arguments are checked against the
contained object's dynamic type and retagged (a `None` object is accepted
against any declared type), non-object arguments must match the declared
parameter type exactly.  `i` is the reported argument index; the zip stops
at the shorter of the two lists, as `Iterator::zip` does. -/
def check_signal_args (signal_name : String) (i : Nat) :
    List Value → List GType → Except SignalError (List Value)
  | [], _ => Except.ok []
  | arg :: args, [] => Except.ok (arg :: args)
  | arg :: args, param_type :: ptys =>
    if is_a arg.g_type gObjectType then
      match value_get_object arg with
      | Except.ok (some objt) =>
        if is_a objt param_type then
          match check_signal_args signal_name (i + 1) args ptys with
          | Except.error e => Except.error e
          | Except.ok rest => Except.ok ({ arg with g_type := param_type } :: rest)
        else
          Except.error (SignalError.argTypeMismatch signal_name i)
      | Except.ok none =>
        -- If the value is None then the type is compatible too
        match check_signal_args signal_name (i + 1) args ptys with
        | Except.error e => Except.error e
        | Except.ok rest => Except.ok ({ arg with g_type := param_type } :: rest)
      | Except.error _ => Except.error SignalError.internal
    else if param_type ≠ arg.g_type then
      Except.error (SignalError.argTypeMismatch signal_name i)
    else
      match check_signal_args signal_name (i + 1) args ptys with
      | Except.error e => Except.error e
      | Except.ok rest => Except.ok (arg :: rest)

/-- Translation of `validate_signal_arguments` (src/object.rs:2185-2280):
resolve the signal, check the arity against `n_params`, then run the
per-argument checks.  Returns the signal id, detail, return type and the
retagged arguments (the Rust function mutates `args` in place). -/
def validate_signal_arguments (reg : SignalRegistry) (type_ : GType) (signal_name : String)
    (args : List Value) : Except SignalError (Nat × Nat × GType × List Value) :=
  match reg.parse_name type_ signal_name with
  | none => Except.error (SignalError.notFound signal_name)
  | some (signal_id, signal_detail) =>
    let details := reg.query signal_id
    if details.signal_id ≠ signal_id then
      Except.error (SignalError.notFound signal_name)
    else if details.n_params ≠ args.length then
      Except.error (SignalError.arityMismatch signal_name details.n_params args.length)
    else
      match check_signal_args signal_name 0 args details.param_types with
      | Except.error e => Except.error e
      | Except.ok args2 => Except.ok (signal_id, signal_detail, details.return_type, args2)

/-- Translation of `ObjectExt::emit` (src/object.rs:1979-2025): build the
self value, validate name/arity/argument types, and only then let the native
`emitv` dispatch the handlers; finally box the return value (`Some` unless
the return box is of unit or invalid type).  The dispatched-handler list in
the result is `emitv`'s observable dispatch; on the error path `emitv` is
never consulted. -/
def emit (reg : SignalRegistry) (self_type : GType) (signal_name : String)
    (args : List Value) : Except SignalError (Option Value × List Nat) :=
  let self_v : Value := { g_type := self_type, content := ValueContent.obj (some self_type) }
  match validate_signal_arguments reg self_type signal_name args with
  | Except.error e => Except.error e
  | Except.ok (signal_id, signal_detail, return_type, args2) =>
    let return_value_init : Value :=
      if return_type ≠ gUnitType then
        { g_type := return_type, content := ValueContent.other 0 }
      else
        { g_type := gInvalidType, content := ValueContent.other 0 }
    let rd := reg.emitv signal_id signal_detail (self_v :: args2) return_value_init
    if rd.1.g_type ≠ gUnitType ∧ rd.1.g_type ≠ gInvalidType then
      Except.ok (some rd.1, rd.2)
    else
      Except.ok (none, rd.2)

/-- What a wrapped handler invocation can do: return a (possibly absent)
value to the native dispatcher, or abort the process (`panic!` /
`unreachable!` in the Rust closure). -/
inductive HandlerResult where
  | ret : Option Value → HandlerResult
  | panic : HandlerResult
deriving DecidableEq

/-- Translation of the closure that `connect_unsafe` wraps around a user
callback (src/object.rs:1891-1959): it checks the shape and type of the
callback's return value against the signal's declared return type and
panics on any contract violation. -/
def connect_closure (return_type : GType) (callback : List Value → Option Value)
    (values : List Value) : HandlerResult :=
  let ret := callback values
  if return_type = gUnitType then
    match ret with
    | some _ => HandlerResult.panic
    | none => HandlerResult.ret none
  else
    match ret with
    | some r =>
      let valid_type : Bool := g_type_check_value_holds r return_type
      if valid_type = false ∧ is_a r.g_type gObjectType = true then
        match value_get_object r with
        | Except.ok (some objt) =>
          if is_a objt return_type then
            HandlerResult.ret (some { r with g_type := return_type })
          else
            HandlerResult.panic
        | Except.ok none =>
          -- If the value is None then the type is compatible too
          HandlerResult.ret (some { r with g_type := return_type })
        | Except.error _ => HandlerResult.panic
      else if valid_type = false then
        HandlerResult.panic
      else
        HandlerResult.ret (some r)
    | none => HandlerResult.panic

/-- The state of one instance together with one weak reference to it, as the
weak-reference manager sees it: the instance's reference count, whether it
is still alive, and whether the weak slot still points at it. -/
structure WeakState where
  refCount : Nat
  alive : Bool
  slot : Bool
deriving DecidableEq

/-- Modelled from the spec: cloning an owned reference atomically increments
the count and never fails (§4.2). -/
def clone_ref (s : WeakState) : WeakState := { s with refCount := s.refCount + 1 }

/-- Modelled from the spec: dropping an owned reference decrements the
count; when it reaches zero the instance is destroyed, the weak slots are
nulled first, and the memory is released (§4.2, §4.5). -/
def drop_ref (s : WeakState) : WeakState :=
  if s.refCount ≤ 1 then { refCount := 0, alive := false, slot := false }
  else { s with refCount := s.refCount - 1 }

/-- Modelled from the spec: `g_weak_ref_get` atomically reads the weak slot
and, if it still points at the target, returns a new strong reference
(incrementing the count); otherwise returns null (§4.5). -/
def g_weak_ref_get (s : WeakState) : Option Unit × WeakState :=
  if s.slot then (some (), { s with refCount := s.refCount + 1 }) else (none, s)

/-- Translation of `WeakRef::upgrade` (src/object.rs:2351-2361): null from
`g_weak_ref_get` becomes `None`, otherwise the returned strong reference is
taken over (`from_glib_full`). -/
def WeakRef.upgrade (s : WeakState) : Option Unit × WeakState :=
  match g_weak_ref_get s with
  | (none, s2) => (none, s2)
  | (some _, s2) => (some (), s2)

/-- The invariant tying the pieces of `WeakState` together for a weak
reference registered to a live instance: the slot points at the target
exactly while the instance is alive (it is nulled at destruction and only
then), and the instance is alive exactly while its count is positive. -/
def weak_inv (s : WeakState) : Prop :=
  s.slot = s.alive ∧ (s.alive = true ↔ 0 < s.refCount)

/-- A `SendWeakRef<T>`: a weak reference plus the id of the thread it was
confined to (`None` for a fresh unconfined one, `Some` after
`From<WeakRef<T>>` captured `get_thread_id()`). -/
structure SendWeakRefM where
  thread : Option Nat
deriving DecidableEq

/-- Outcome of an operation on a `SendWeakRef`: normal completion or a
panic. -/
inductive DerefResult where
  | ok : DerefResult
  | panic : DerefResult
deriving DecidableEq

/-- Translation of `Deref for SendWeakRef` (src/object.rs:2420-2430), the
path every `upgrade` call takes: panics when dereferenced on a thread other
than the one recorded at confinement. -/
def sendweakref_deref (r : SendWeakRefM) (current_thread : Nat) : DerefResult :=
  if r.thread.isSome ∧ r.thread ≠ some current_thread then DerefResult.panic
  else DerefResult.ok

/-- Translation of `Clone for SendWeakRef` (src/object.rs:2433-2437): copies
the weak reference and the confinement id with no thread check. -/
def sendweakref_clone (r : SendWeakRefM) (current_thread : Nat) : SendWeakRefM :=
  let _ := current_thread
  { thread := r.thread }

/-- Translation of dropping a `SendWeakRef`: the derived drop clears the
underlying `GWeakRef` with no thread check (src/object.rs:2364-2370). -/
def sendweakref_drop (r : SendWeakRefM) (current_thread : Nat) : DerefResult :=
  let _ := r
  let _ := current_thread
  DerefResult.ok

/-- Translation of `From<WeakRef<T>> for SendWeakRef<T>`
(src/object.rs:2445-2449): records `get_thread_id()` of the calling
thread. -/
def sendweakref_from_weakref (creation_thread : Nat) : SendWeakRefM :=
  { thread := some creation_thread }

/-! Concrete fixtures: a small registry of types, descriptors and objects on
which the theorems below are instantiated. -/

/-- A concrete object type `A` (a direct subtype of the object base). -/
def tA : GType := ⟨10, [10, 1], true, false⟩

/-- A concrete object type `B`, unrelated to `A`. -/
def tB : GType := ⟨11, [11, 1], true, false⟩

/-- A concrete object type `C`, a subtype of `B`. -/
def tC : GType := ⟨12, [12, 11, 1], true, false⟩

/-- A concrete non-object value type (for example an integer type). -/
def tInt : GType := ⟨20, [20], false, false⟩

/-- A concrete initially-unowned object type. -/
def tIU : GType := ⟨13, [13, 3, 1], true, false⟩

/-- Readable and writable, no construct-only, strict validation. -/
def flagsRW : ParamFlags := ⟨true, true, false, false⟩

/-- Read-only flags (WRITABLE absent). -/
def flagsRO : ParamFlags := ⟨true, false, false, false⟩

/-- Writable and construct-only. -/
def flagsCO : ParamFlags := ⟨true, true, true, false⟩

/-- Writable with LAX_VALIDATION. -/
def flagsLax : ParamFlags := ⟨true, true, false, true⟩

/-- A writable object-typed property of value type `B` with no coercion. -/
def pspecB : ParamSpec :=
  { name := "prop", flags := flagsRW, value_type := tB, validate := fun x => x }

/-- A read-only property. -/
def pspecRO : ParamSpec :=
  { name := "ro", flags := flagsRO, value_type := tB, validate := fun x => x }

/-- A writable construct-only property. -/
def pspecCO : ParamSpec :=
  { name := "co", flags := flagsCO, value_type := tB, validate := fun x => x }

/-- An integer property whose validation clamps every payload to 7, without
LAX_VALIDATION. -/
def pspecClamp : ParamSpec :=
  { name := "cl", flags := flagsRW, value_type := tInt,
    validate := fun x => { x with content := ValueContent.other 7 } }

/-- The same clamping property with LAX_VALIDATION set. -/
def pspecClampLax : ParamSpec :=
  { name := "cx", flags := flagsLax, value_type := tInt,
    validate := fun x => { x with content := ValueContent.other 7 } }

/-- A value statically tagged `B` containing an object of dynamic type `B`. -/
def vB : Value := ⟨tB, ValueContent.obj (some tB)⟩

/-- A value statically tagged `A` containing an object of dynamic type `A`. -/
def vA : Value := ⟨tA, ValueContent.obj (some tA)⟩

/-- A value statically tagged `A` containing no object. -/
def vNoneA : Value := ⟨tA, ValueContent.obj none⟩

/-- An integer value with payload 9 (which `pspecClamp` coerces to 7). -/
def vInt9 : Value := ⟨tInt, ValueContent.other 9⟩

/-- A non-object value of a type incompatible with `pspecB`. -/
def vInt0 : Value := ⟨tInt, ValueContent.other 0⟩

/-- A concrete object of type `A` carrying all the fixture descriptors. -/
def objA : GObject :=
  { type_ := tA, klass := [pspecB, pspecRO, pspecCO, pspecClamp, pspecClampLax], props := [] }

/-- An object whose class declares no properties at all. -/
def objEmpty : GObject := { type_ := tA, klass := [], props := [] }

/-- A one-argument unit-returning signal descriptor with parameter type `B`. -/
def sigQ1 : SignalQuery :=
  { signal_id := 5, n_params := 1, param_types := [tB], return_type := gUnitType }

/-- A placeholder query result for unknown signal ids. -/
def sigQ0 : SignalQuery :=
  { signal_id := 0, n_params := 0, param_types := [], return_type := gUnitType }

/-- A concrete signal registry resolving the name "sig" to signal id 5, with
a dispatcher that invokes no handlers and leaves the return box alone. -/
def reg1 : SignalRegistry :=
  { parse_name := fun t n => let _ := t; if n = "sig" then some (5, 0) else none
  , query := fun i => if i = 5 then sigQ1 else sigQ0
  , emitv := fun sid det vs rv => let _ := sid; let _ := det; let _ := vs; (rv, []) }

/-- The type-check acceptance condition exactly as claim C2 words it: the
value's type equals the descriptor's value type, or the value's type is an
object type and the contained object's dynamic type is a subtype of the
descriptor's value type.  Stated from the spec's words, for comparison with
the code's behaviour. -/
def c2_claimed_ok (v : Value) (p : ParamSpec) : Bool :=
  v.g_type == p.value_type ||
    (is_a v.g_type gObjectType &&
      match v.content with
      | ValueContent.obj (some d) => is_a d p.value_type
      | _ => false)

/-- The type-check acceptance condition the code implements: the value's
static type is the descriptor's value type or a subtype of it, or the
value's static type is an object type and the value contains either no
object or an object whose dynamic type is a subtype of the descriptor's
value type. -/
def c2_amended_ok (v : Value) (p : ParamSpec) : Bool :=
  is_a v.g_type p.value_type ||
    (is_a v.g_type gObjectType &&
      match v.content with
      | ValueContent.obj none => true
      | ValueContent.obj (some d) => is_a d p.value_type
      | ValueContent.other _ => false)

/-- Helper: under the checks of `Object::new_internal`, construction yields
an owned, non-floating reference with count 1, whether or not the type is
initially-unowned. -/
theorem new_internal_owned (type_ : GType) (params : List (String × Value))
    (h1 : is_a type_ gObjectType = true) (h2 : type_.instantiatable = true)
    (h3 : type_.abstract = false) :
    Object.new_internal type_ params = Except.ok { refCount := 1, floating := false } := by
  unfold Object.new_internal g_object_newv from_glib_none_obj from_glib_full_obj g_object_ref_sink
  rw [if_neg (by simp [h1]), if_neg (by simp [h2]), if_neg (by simp [h3])]
  by_cases hiu : is_a type_ gInitiallyUnownedType
  · simp [hiu]
  · simp [hiu]

/-- Helper: if some supplied pair fails validation, the whole validation
pass fails. -/
theorem validate_pairs_error_of_mem (t : GType) (ps : List ParamSpec)
    (pvs : List (String × Value)) (nv : String × Value) (e : PropError)
    (hmem : nv ∈ pvs) (hfail : validate_pair t ps false nv = Except.error e) :
    ∃ e2, validate_pairs t ps false pvs = Except.error e2 := by
  induction pvs with
  | nil => cases hmem
  | cons hd tl ih =>
    cases hmem with
    | head => exact ⟨e, by simp [validate_pairs, hfail]⟩
    | tail _ hmem2 =>
      obtain ⟨e2, he2⟩ := ih hmem2
      cases hhd : validate_pair t ps false hd with
      | error e3 => exact ⟨e3, by simp [validate_pairs, hhd]⟩
      | ok p => exact ⟨e2, by simp [validate_pairs, hhd, he2]⟩

/-- C1: if the looked-up descriptor's flags lack WRITABLE, or they contain
CONSTRUCT_ONLY and the call is not part of construction, `set_property`
returns the not-writable error (and, the result being an error, nothing is
committed); during construction (`allow_construct_only = true`, as
`Object::new` passes) a CONSTRUCT_ONLY property never trips the
writability check provided WRITABLE is set, and with a type-correct
uncoerced value the construction succeeds. -/
theorem c1_not_writable :
    (∀ (obj : GObject) (name : String) (v : Value) (pspec : ParamSpec),
      find_property obj name = some pspec →
      pspec.flags.writable = false ∨ pspec.flags.construct_only = true →
      set_property obj name v = Except.error (PropError.notWritable pspec.name))
  ∧ (∀ (t : GType) (pspec : ParamSpec) (v : Value),
      pspec.flags.writable = true →
      validate_property_type t true pspec v ≠ Except.error (PropError.notWritable pspec.name))
  ∧ (∀ (type_ : GType) (pspec : ParamSpec) (v : Value),
      pspec.flags.writable = true →
      g_type_check_value_holds v pspec.value_type = true →
      pspec.validate v = v →
      is_a type_ gObjectType = true → type_.instantiatable = true → type_.abstract = false →
      Object.new_generic type_ [pspec] [(pspec.name, v)] =
        Except.ok { refCount := 1, floating := false }) := by
  refine ⟨?_, ?_, ?_⟩
  · intro obj name v pspec hfind hflags
    have hcond : pspec.flags.writable = false ∨
        (false = false ∧ pspec.flags.construct_only = true) := by
      rcases hflags with h | h
      · exact Or.inl h
      · exact Or.inr ⟨rfl, h⟩
    simp only [set_property, hfind]
    unfold validate_property_type
    rw [if_pos hcond]
  · intro t pspec v hw heq
    by_cases hvt : g_type_check_value_holds v pspec.value_type = true
    · simp [validate_property_type, hvt, hw, ite_eq_iff] at heq
    · simp only [Bool.not_eq_true] at hvt
      by_cases hobj : is_a v.g_type gObjectType = true
      · cases hgo : value_get_object v with
        | error u => simp [validate_property_type, hvt, hobj, hgo, hw] at heq
        | ok o =>
          cases o with
          | none => simp [validate_property_type, hvt, hobj, hgo, hw, ite_eq_iff] at heq
          | some d =>
            by_cases hd : is_a d pspec.value_type = true
            · simp [validate_property_type, hvt, hobj, hgo, hd, hw, ite_eq_iff] at heq
            · simp only [Bool.not_eq_true] at hd
              simp [validate_property_type, hvt, hobj, hgo, hd, hw] at heq
      · simp only [Bool.not_eq_true] at hobj
        simp [validate_property_type, hvt, hobj, hw] at heq
  · intro type_ pspec v hw hvt hval h1 h2 h3
    have hok : validate_property_type type_ true pspec v = Except.ok v := by
      simp [validate_property_type, hvt, hw, hval]
    have hvp : validate_pairs type_ [pspec] true [(pspec.name, v)] =
        Except.ok [(pspec.name, v)] := by
      simp [validate_pairs, validate_pair, List.find?, hok]
    unfold Object.new_generic
    rw [hvp]
    exact new_internal_owned type_ _ h1 h2 h3

/-- Witness for C1 at concrete inputs: a read-only property rejected by
`set_property`, a writable construct-only property passing the writability
check during construction, and a full construction succeeding with it. -/
theorem c1_not_writable_witness :
    set_property objA "ro" vB = Except.error (PropError.notWritable "ro")
  ∧ validate_property_type tA true pspecCO vB ≠ Except.error (PropError.notWritable "co")
  ∧ Object.new_generic tA [pspecCO] [("co", vB)] =
      Except.ok { refCount := 1, floating := false } :=
  ⟨c1_not_writable.1 objA "ro" vB pspecRO rfl (Or.inl rfl),
   c1_not_writable.2.1 tA pspecCO vB rfl,
   c1_not_writable.2.2 tA pspecCO vB rfl rfl rfl rfl rfl rfl⟩

/-- C2 counterexample: the value `vNoneA` is statically tagged with object
type `A`, contains no object, and `A` is unrelated to the descriptor's value
type `B`; the claim's acceptance condition (type equality, or a contained
object of a compatible dynamic type) does not hold, yet the type check
accepts the value and retags it to `B` instead of failing with a type
mismatch. -/
theorem c2_counterexample :
    validate_property_type tA false pspecB vNoneA =
      Except.ok { g_type := tB, content := ValueContent.obj none }
  ∧ c2_claimed_ok vNoneA pspecB = false :=
  ⟨rfl, rfl⟩

/-- C2 (amended): for a writable non-construct-only descriptor with no
coercion, and a well-formed value (object-tagged values carry object
payloads), `set_property` passes the type check exactly when the value's
static type is the descriptor's value type or a subtype of it, or the
value's static type is an object type and the value contains either no
object or an object whose dynamic type is a subtype of the descriptor's
value type; in every other case it fails with the type-mismatch error (and
commits nothing). -/
theorem c2_type_check (obj : GObject) (name : String) (v : Value) (pspec : ParamSpec)
    (hfind : find_property obj name = some pspec)
    (hw : pspec.flags.writable = true) (hco : pspec.flags.construct_only = false)
    (hid : ∀ x, pspec.validate x = x)
    (hwf : is_a v.g_type gObjectType = true → ∃ o, v.content = ValueContent.obj o) :
    (c2_amended_ok v pspec = true → ∃ obj2, set_property obj name v = Except.ok obj2)
  ∧ (c2_amended_ok v pspec = false →
      set_property obj name v = Except.error (PropError.typeMismatch pspec.name)) := by
  by_cases hvt : g_type_check_value_holds v pspec.value_type = true
  · have hvt2 : is_a v.g_type pspec.value_type = true := hvt
    have hok : set_property obj name v = Except.ok (g_object_set_property obj name v) := by
      simp [set_property, hfind, validate_property_type, hvt, hw, hco, hid]
    have hamended : c2_amended_ok v pspec = true := by
      simp [c2_amended_ok, hvt2]
    exact ⟨fun _ => ⟨_, hok⟩, fun hfalse => absurd hfalse (by simp [hamended])⟩
  · simp only [Bool.not_eq_true] at hvt
    have hvt2 : is_a v.g_type pspec.value_type = false := hvt
    by_cases hobj : is_a v.g_type gObjectType = true
    · obtain ⟨o, ho⟩ := hwf hobj
      cases o with
      | none =>
        have hok : set_property obj name v =
            Except.ok (g_object_set_property obj name { v with g_type := pspec.value_type }) := by
          simp [set_property, hfind, validate_property_type, value_get_object,
            hvt, hobj, ho, hw, hco, hid]
        have hamended : c2_amended_ok v pspec = true := by
          simp [c2_amended_ok, hvt2, hobj, ho]
        exact ⟨fun _ => ⟨_, hok⟩, fun hfalse => absurd hfalse (by simp [hamended])⟩
      | some d =>
        by_cases hd : is_a d pspec.value_type = true
        · have hok : set_property obj name v =
              Except.ok (g_object_set_property obj name { v with g_type := pspec.value_type }) := by
            simp [set_property, hfind, validate_property_type, value_get_object,
              hvt, hobj, ho, hd, hw, hco, hid]
          have hamended : c2_amended_ok v pspec = true := by
            simp [c2_amended_ok, hvt2, hobj, ho, hd]
          exact ⟨fun _ => ⟨_, hok⟩, fun hfalse => absurd hfalse (by simp [hamended])⟩
        · simp only [Bool.not_eq_true] at hd
          have herr : set_property obj name v =
              Except.error (PropError.typeMismatch pspec.name) := by
            simp [set_property, hfind, validate_property_type, value_get_object,
              hvt, hobj, ho, hd, hw, hco]
          have hamended : c2_amended_ok v pspec = false := by
            simp [c2_amended_ok, hvt2, hobj, ho, hd]
          exact ⟨fun htrue => absurd htrue (by simp [hamended]), fun _ => herr⟩
    · simp only [Bool.not_eq_true] at hobj
      have herr : set_property obj name v =
          Except.error (PropError.typeMismatch pspec.name) := by
        simp [set_property, hfind, validate_property_type, hvt, hobj, hw, hco]
      have hamended : c2_amended_ok v pspec = false := by
        simp [c2_amended_ok, hvt2, hobj]
      exact ⟨fun htrue => absurd htrue (by simp [hamended]), fun _ => herr⟩

/-- Witness for C2 (amended): a value of the exact descriptor type is
accepted, a value containing an object of an incompatible dynamic type
fails with the type-mismatch error. -/
theorem c2_type_check_witness :
    (∃ obj2, set_property objA "prop" vB = Except.ok obj2)
  ∧ set_property objA "prop" vA = Except.error (PropError.typeMismatch "prop") :=
  ⟨(c2_type_check objA "prop" vB pspecB rfl rfl rfl (fun _ => rfl)
      (fun _ => ⟨some tB, rfl⟩)).1 rfl,
   (c2_type_check objA "prop" vA pspecB rfl rfl rfl (fun _ => rfl)
      (fun _ => ⟨some tA, rfl⟩)).2 rfl⟩

/-- C3: for a writable, type-correct assignment, if descriptor-specific
validation coerces (changes) the value and LAX_VALIDATION is absent,
`set_property` fails with the validation-failed error; with LAX_VALIDATION
set, the call succeeds and commits the coerced value. -/
theorem c3_validation_coercion (obj : GObject) (name : String) (v : Value) (pspec : ParamSpec)
    (hfind : find_property obj name = some pspec)
    (hw : pspec.flags.writable = true) (hco : pspec.flags.construct_only = false)
    (hvt : g_type_check_value_holds v pspec.value_type = true)
    (hch : pspec.validate v ≠ v) :
    (pspec.flags.lax_validation = false →
      set_property obj name v = Except.error (PropError.validationFailed pspec.name))
  ∧ (pspec.flags.lax_validation = true →
      set_property obj name v = Except.ok (g_object_set_property obj name (pspec.validate v))) := by
  constructor
  · intro hlax
    simp [set_property, hfind, validate_property_type, hvt, hw, hco, hch, hlax]
  · intro hlax
    simp [set_property, hfind, validate_property_type, hvt, hw, hco, hch, hlax]

/-- Witness for C3 at the clamping descriptors: the strict one rejects a
coerced payload, the lax one commits the clamped value. -/
theorem c3_validation_coercion_witness :
    set_property objA "cl" vInt9 = Except.error (PropError.validationFailed "cl")
  ∧ set_property objA "cx" vInt9 =
      Except.ok (g_object_set_property objA "cx" ⟨tInt, ValueContent.other 7⟩) :=
  ⟨(c3_validation_coercion objA "cl" vInt9 pspecClamp rfl rfl rfl rfl (by decide)).1 rfl,
   (c3_validation_coercion objA "cx" vInt9 pspecClampLax rfl rfl rfl rfl (by decide)).2 rfl⟩

/-- C7 counterexample: at the concrete initially-unowned type `tIU`,
`Object::new_internal` returns a reference that is already sunk
(`floating = false`, the binding's `from_glib_none` calls
`g_object_ref_sink` and takes ownership), whereas the claim asserts the
returned reference is still floating (not yet sunk). -/
theorem c7_counterexample :
    Object.new_internal tIU [] = Except.ok { refCount := 1, floating := false }
  ∧ ({ refCount := 1, floating := false } : NativeObj).floating ≠ true :=
  ⟨rfl, by decide⟩

/-- C7 (amended): for every constructible object type, `Object::new`
returns an owned, non-floating reference with count 1; when the type is
initially-unowned the native allocation is indeed floating, and taking
ownership sinks it without an additional reference-count increment. -/
theorem c7_new_owned (type_ : GType) (params : List (String × Value))
    (h1 : is_a type_ gObjectType = true) (h2 : type_.instantiatable = true)
    (h3 : type_.abstract = false) :
    Object.new_internal type_ params = Except.ok { refCount := 1, floating := false }
  ∧ (is_a type_ gInitiallyUnownedType = true →
      g_object_newv type_ params = some { refCount := 1, floating := true }
      ∧ from_glib_none_obj { refCount := 1, floating := true } =
          { refCount := 1, floating := false }) := by
  refine ⟨new_internal_owned type_ params h1 h2 h3, ?_⟩
  intro hiu
  constructor
  · simp [g_object_newv, hiu]
  · simp [from_glib_none_obj, g_object_ref_sink]

/-- Witness for C7 (amended) at the concrete types `tA` (plain) and `tIU`
(initially-unowned). -/
theorem c7_new_owned_witness :
    Object.new_internal tA [] = Except.ok { refCount := 1, floating := false }
  ∧ (is_a tIU gInitiallyUnownedType = true →
      g_object_newv tIU [] = some { refCount := 1, floating := true }
      ∧ from_glib_none_obj { refCount := 1, floating := true } =
          { refCount := 1, floating := false }) :=
  ⟨(c7_new_owned tA [] rfl rfl rfl).1, (c7_new_owned tIU [] rfl rfl rfl).2⟩

/-- C10: `set_properties` validates every supplied pair (name lookup and
`validate_property_type`) before the commit loop runs; if any pair fails
validation the whole call returns an error, and since the commit loop runs
only in the success branch, no property of the object is modified. -/
theorem c10_validate_before_commit (obj : GObject) (pvs : List (String × Value))
    (nv : String × Value) (e : PropError) (hmem : nv ∈ pvs)
    (hfail : validate_pair obj.type_ obj.klass false nv = Except.error e) :
    ∃ e2, set_properties obj pvs = Except.error e2 := by
  obtain ⟨e2, he2⟩ := validate_pairs_error_of_mem obj.type_ obj.klass pvs nv e hmem hfail
  exact ⟨e2, by simp [set_properties, he2]⟩

/-- Witness for C10: a two-pair batch whose second pair names an unknown
property makes the whole `set_properties` call fail. -/
theorem c10_validate_before_commit_witness :
    ∃ e2, set_properties objA [("prop", vB), ("missing", vB)] = Except.error e2 :=
  c10_validate_before_commit objA [("prop", vB), ("missing", vB)] ("missing", vB)
    (PropError.notFound "missing") (by simp) rfl

/-- C4: when the signal name resolves but the argument count differs from
the declared arity, `emit` (through `validate_signal_arguments`) returns the
arity-mismatch error; the native dispatcher `emitv` is consulted only in the
success branch, so no handler is invoked and nothing is dispatched. -/
theorem c4_arity_mismatch (reg : SignalRegistry) (t : GType) (signal_name : String)
    (args : List Value) (sid det : Nat)
    (hparse : reg.parse_name t signal_name = some (sid, det))
    (hq : (reg.query sid).signal_id = sid)
    (hn : (reg.query sid).n_params ≠ args.length) :
    emit reg t signal_name args =
      Except.error (SignalError.arityMismatch signal_name (reg.query sid).n_params args.length)
  ∧ validate_signal_arguments reg t signal_name args =
      Except.error (SignalError.arityMismatch signal_name (reg.query sid).n_params args.length) := by
  have hval : validate_signal_arguments reg t signal_name args =
      Except.error (SignalError.arityMismatch signal_name (reg.query sid).n_params args.length) := by
    simp [validate_signal_arguments, hparse, hq, hn]
  exact ⟨by simp [emit, hval], hval⟩

/-- Witness for C4: emitting the one-argument signal "sig" with zero
arguments fails with the arity-mismatch error. -/
theorem c4_arity_mismatch_witness :
    emit reg1 tA "sig" [] = Except.error (SignalError.arityMismatch "sig" 1 0)
  ∧ validate_signal_arguments reg1 tA "sig" [] =
      Except.error (SignalError.arityMismatch "sig" 1 0) :=
  c4_arity_mismatch reg1 tA "sig" [] 5 0 rfl rfl (by decide)

/-- C5: in the closure `connect_unsafe` wraps around a handler, for a
unit-returning signal the wrapper panics exactly when the handler returns a
value; for a non-unit-returning signal a handler returning nothing panics,
while a handler returning a value of the declared type does not panic —
these panics are fatal aborts, not recoverable errors, and among
well-typed returns the two shape conditions are the only aborts. -/
theorem c5_return_shape (return_type : GType) (callback : List Value → Option Value)
    (values : List Value) :
    (return_type = gUnitType →
      (connect_closure return_type callback values = HandlerResult.panic ↔
        (callback values).isSome = true))
  ∧ (return_type ≠ gUnitType → callback values = none →
      connect_closure return_type callback values = HandlerResult.panic)
  ∧ (return_type ≠ gUnitType → ∀ r, callback values = some r →
      g_type_check_value_holds r return_type = true →
      connect_closure return_type callback values = HandlerResult.ret (some r)) := by
  refine ⟨?_, ?_, ?_⟩
  · intro hu
    subst hu
    cases hcb : callback values with
    | none => simp [connect_closure, hcb]
    | some r => simp [connect_closure, hcb]
  · intro hu hcb
    simp [connect_closure, hcb, hu]
  · intro hu r hcb hvt
    simp [connect_closure, hcb, hu, hvt]

/-- Witness for C5: a handler returning a value on a unit signal panics, a
handler returning nothing on a value signal panics, and a well-typed return
is passed through. -/
theorem c5_return_shape_witness :
    connect_closure gUnitType (fun _ => some vB) [] = HandlerResult.panic
  ∧ connect_closure tB (fun _ => none) [] = HandlerResult.panic
  ∧ connect_closure tB (fun _ => some vB) [] = HandlerResult.ret (some vB) :=
  ⟨((c5_return_shape gUnitType (fun _ => some vB) []).1 rfl).mpr rfl,
   (c5_return_shape tB (fun _ => none) []).2.1 (by decide) rfl,
   (c5_return_shape tB (fun _ => some vB) []).2.2 (by decide) vB rfl rfl⟩

/-- C6: an object-typed argument value containing no object passes signal
argument validation against any declared parameter type and is retagged to
it rather than reported as an argument type mismatch; a handler of a
non-unit signal returning an object-typed `None` value is likewise accepted
and retagged to the declared return type. -/
theorem c6_none_object (reg : SignalRegistry) (t : GType) (signal_name : String)
    (v : Value) (pt : GType) (sid det : Nat)
    (hparse : reg.parse_name t signal_name = some (sid, det))
    (hq : (reg.query sid).signal_id = sid)
    (hn : (reg.query sid).n_params = 1)
    (hp : (reg.query sid).param_types = [pt])
    (hobj : is_a v.g_type gObjectType = true)
    (hnone : v.content = ValueContent.obj none) :
    validate_signal_arguments reg t signal_name [v] =
      Except.ok (sid, det, (reg.query sid).return_type, [{ v with g_type := pt }])
  ∧ ∀ (callback : List Value → Option Value) (values : List Value) (rt : GType) (r : Value),
      rt ≠ gUnitType → callback values = some r →
      g_type_check_value_holds r rt = false →
      is_a r.g_type gObjectType = true → r.content = ValueContent.obj none →
      connect_closure rt callback values = HandlerResult.ret (some { r with g_type := rt }) := by
  constructor
  · have hargs : check_signal_args signal_name 0 [v] [pt] =
        Except.ok [{ v with g_type := pt }] := by
      simp [check_signal_args, value_get_object, hobj, hnone]
    simp [validate_signal_arguments, hparse, hq, hn, hp, hargs]
  · intro callback values rt r hrt hcb hvt hro hrn
    simp [connect_closure, hcb, hrt, hvt, hro, hrn, value_get_object]

/-- Witness for C6: the `None`-object value tagged `A` passes validation for
the signal "sig" whose parameter type is `B`, retagged to `B`; the same
value is accepted as a handler return for return type `B`. -/
theorem c6_none_object_witness :
    validate_signal_arguments reg1 tA "sig" [vNoneA] =
      Except.ok (5, 0, gUnitType, [{ vNoneA with g_type := tB }])
  ∧ connect_closure tB (fun _ => some vNoneA) [] =
      HandlerResult.ret (some { vNoneA with g_type := tB }) :=
  ⟨(c6_none_object reg1 tA "sig" vNoneA tB 5 0 rfl rfl rfl rfl rfl rfl).1,
   (c6_none_object reg1 tA "sig" vNoneA tB 5 0 rfl rfl rfl rfl rfl rfl).2
     (fun _ => some vNoneA) [] tB vNoneA (by decide) rfl rfl rfl rfl⟩

/-- C8: for a weak reference satisfying the state invariant, `upgrade`
returns a (fresh, count-incrementing) strong reference exactly when the
target is still alive; dropping the last owned reference destroys the
target and nulls the slot, after which `upgrade` returns `None`; the
invariant is preserved by drop and clone, so an upgrade can never observe a
destroyed instance. -/
theorem c8_weak_upgrade (s : WeakState) (h : weak_inv s) :
    ((WeakRef.upgrade s).1.isSome = true ↔ s.alive = true)
  ∧ ((WeakRef.upgrade s).1.isSome = true → (WeakRef.upgrade s).2.refCount = s.refCount + 1)
  ∧ (s.refCount = 1 → (WeakRef.upgrade (drop_ref s)).1 = none)
  ∧ weak_inv (drop_ref s)
  ∧ (s.alive = true → weak_inv (clone_ref s)) := by
  obtain ⟨h1, h2⟩ := h
  obtain ⟨rc, al, sl⟩ := s
  simp only at h1 h2 ⊢
  subst h1
  cases sl with
  | false =>
    have hrc0 : rc = 0 := by
      rcases Nat.eq_zero_or_pos rc with h0 | hpos
      · exact h0
      · cases h2.mpr hpos
    subst hrc0
    refine ⟨?_, ?_, ?_, ?_, ?_⟩ <;>
      simp [WeakRef.upgrade, g_weak_ref_get, drop_ref, clone_ref, weak_inv]
  | true =>
    refine ⟨?_, ?_, ?_, ?_, ?_⟩
    · simp [WeakRef.upgrade, g_weak_ref_get]
    · intro _
      simp [WeakRef.upgrade, g_weak_ref_get]
    · intro h1rc
      subst h1rc
      simp [WeakRef.upgrade, g_weak_ref_get, drop_ref]
    · by_cases hrc : rc ≤ 1
      · simp [drop_ref, hrc, weak_inv]
      · simp [drop_ref, hrc, weak_inv]
        omega
    · intro _
      simp [clone_ref, weak_inv]

/-- Witness for C8 at the state of a live instance with a single owner and
a registered weak reference. -/
theorem c8_weak_upgrade_witness :
    ((WeakRef.upgrade ⟨1, true, true⟩).1.isSome = true ↔
      (⟨1, true, true⟩ : WeakState).alive = true)
  ∧ ((WeakRef.upgrade ⟨1, true, true⟩).1.isSome = true →
      (WeakRef.upgrade ⟨1, true, true⟩).2.refCount = (⟨1, true, true⟩ : WeakState).refCount + 1)
  ∧ ((⟨1, true, true⟩ : WeakState).refCount = 1 →
      (WeakRef.upgrade (drop_ref ⟨1, true, true⟩)).1 = none)
  ∧ weak_inv (drop_ref ⟨1, true, true⟩)
  ∧ ((⟨1, true, true⟩ : WeakState).alive = true → weak_inv (clone_ref ⟨1, true, true⟩)) :=
  c8_weak_upgrade ⟨1, true, true⟩ (by constructor <;> simp [weak_inv])

/-- C9: a `SendWeakRef` confined by `From<WeakRef<T>>` panics when
dereferenced (the step `upgrade` goes through) on any thread other than the
one that created it, succeeds on the creating thread, and clone and drop
succeed from any thread. -/
theorem c9_send_weak_ref (creation : Nat) :
    (∀ other : Nat, other ≠ creation →
      sendweakref_deref (sendweakref_from_weakref creation) other = DerefResult.panic)
  ∧ sendweakref_deref (sendweakref_from_weakref creation) creation = DerefResult.ok
  ∧ (∀ th : Nat, sendweakref_clone (sendweakref_from_weakref creation) th =
      sendweakref_from_weakref creation)
  ∧ (∀ th : Nat, sendweakref_drop (sendweakref_from_weakref creation) th = DerefResult.ok) := by
  refine ⟨?_, ?_, ?_, ?_⟩
  · intro other hne
    simp [sendweakref_deref, sendweakref_from_weakref, Ne.symm hne]
  · simp [sendweakref_deref, sendweakref_from_weakref]
  · intro th
    simp [sendweakref_clone, sendweakref_from_weakref]
  · intro th
    simp [sendweakref_drop]

/-- Witness for C9 with creation thread 1 and other thread 2. -/
theorem c9_send_weak_ref_witness :
    sendweakref_deref (sendweakref_from_weakref 1) 2 = DerefResult.panic
  ∧ sendweakref_deref (sendweakref_from_weakref 1) 1 = DerefResult.ok
  ∧ sendweakref_clone (sendweakref_from_weakref 1) 2 = sendweakref_from_weakref 1
  ∧ sendweakref_drop (sendweakref_from_weakref 1) 2 = DerefResult.ok :=
  ⟨(c9_send_weak_ref 1).1 2 (by decide), (c9_send_weak_ref 1).2.1,
   (c9_send_weak_ref 1).2.2.1 2, (c9_send_weak_ref 1).2.2.2 2⟩

end Glib
